import Mathlib

/-!
Verification of the ASC lottery plugin.

The repository implements a daily in-game lottery: players buy one ticket
per draw cycle, a scheduled daily draw picks winning numbers, and every
ticket holder splits the jackpot. This file gives a shallow embedding of
the core functions (`parseTicketNumbers`, `buyTicket`,
`generateRandomNumbers`, `drawWinningNumbers`, the scheduler's next-fire
computation) and proves or refutes the specification's claims about them.

Modelling conventions:
* JavaScript numbers produced by the `Number` conversion are modelled as
  exact rationals (`ℚ`), with `NaN` modelled as `Option.none`; money,
  counts and winning numbers, which the code only ever holds as integers,
  are modelled as `ℤ`/`ℕ`. Every value appearing in the claims (for
  example `1.5`) is exactly representable in the engine's binary64
  numbers, so the idealisation does not affect any verdict.
* The external document store is modelled as explicit fields of a `World`
  record; the external currency ledger is a balance table plus an event
  trace of its `sub`/`add` calls.
* The composite `Math.floor(Math.random() * (max - min + 1))` is modelled
  as an oracle stream `rand : ℕ → ℕ`; since `Math.random()` ranges over
  `[0, 1)`, the composite ranges over `{0, …, max - min}`, which becomes
  a hypothesis on the stream. The possibly non-terminating
  rejection-sampling loop takes fuel and returns `none` when the fuel
  runs out; a run of the draw that completes is one that returns `some`.
-/

/-- Configuration record (`lotteryConfig` in `config.js`): ticket price and
initial jackpot; the collection name is irrelevant to the model. -/
structure LotteryConfig where
  ticketPrice : ℤ
  initialJackpot : ℤ

/-- The singleton lottery state document (interface `ASCLottery`). -/
structure ASCLottery where
  ticketPrice : ℤ
  jackpot : ℤ
  lastDrawDate : ℤ
  winningNumbers : List ℕ
  deriving DecidableEq

/-- A lottery ticket document (interface `LotteryTicket`). The chosen
numbers are JavaScript numbers, hence `ℚ` (the validator does not force
integrality: a fractional in-range value is accepted). -/
structure LotteryTicket where
  _id : Option String
  ticketNumbers : List ℚ
  playerUUID : String
  deriving DecidableEq

/-- A character document from the external identity directory. -/
structure Character where
  _id : String
  name : String
  deriving DecidableEq

/-- Range of valid numbers for the lottery (`numberRange` in the source). -/
structure NumberRange where
  min : ℕ
  max : ℕ

def numberRange : NumberRange := { min := 1, max := 49 }

/-- Time of day of the daily draw (`drawTime` in the source). -/
structure DrawTime where
  hour : ℕ
  minute : ℕ

def drawTime : DrawTime := { hour := 18, minute := 0 }

/-! ## JavaScript numeric conversion

`parseTicketNumbers` applies JavaScript `String.prototype.split(' ')` and
the `Number` conversion. Both are modelled by structural recursion over
the character list of the string. For `Number` we model the fragment of
the conversion grammar exercised here: the token is trimmed; an empty
remainder converts to `0`; an optional sign followed by decimal digits
with an optional fractional part converts to the corresponding value;
any other shape is `NaN`, modelled as `none`. -/

/-- JavaScript `split(' ')`: cut at every single space character.
Consecutive separators yield empty tokens and the empty string yields one
empty token, as in JavaScript. -/
def splitOnSpaceAux : List Char → List Char → List (List Char)
  | [], acc => [acc.reverse]
  | c :: rest, acc =>
    if c = ' ' then acc.reverse :: splitOnSpaceAux rest []
    else splitOnSpaceAux rest (c :: acc)

def splitOnSpace (l : List Char) : List (List Char) :=
  splitOnSpaceAux l []

/-- Strip leading and trailing whitespace, as the `Number` conversion does. -/
def trimChars (l : List Char) : List Char :=
  ((l.dropWhile Char.isWhitespace).reverse.dropWhile Char.isWhitespace).reverse

/-- Numeric value of a list of decimal digit characters. -/
def digitsToNat (l : List Char) : ℕ :=
  l.foldl (fun a c => a * 10 + (c.toNat - 48)) 0

/-- Conversion of a trimmed, non-empty character list, per the JavaScript
string-to-number grammar restricted to sign, integer part and fractional
part; the exact decimal value is returned as a rational. -/
def jsNumberCore (l : List Char) : Option ℚ :=
  let signAndRest : Bool × List Char :=
    match l with
    | '-' :: r => (true, r)
    | '+' :: r => (false, r)
    | r => (false, r)
  let neg := signAndRest.1
  let rest := signAndRest.2
  let intPart := rest.takeWhile Char.isDigit
  let afterInt := rest.dropWhile Char.isDigit
  let build : List Char → ℚ := fun fracPart =>
    let mag : ℤ := digitsToNat intPart * 10 ^ fracPart.length + digitsToNat fracPart
    mkRat (if neg then -mag else mag) (10 ^ fracPart.length)
  match afterInt with
  | [] => if intPart.isEmpty then none else some (build [])
  | '.' :: fr =>
    let fracPart := fr.takeWhile Char.isDigit
    let afterFrac := fr.dropWhile Char.isDigit
    if afterFrac.isEmpty && !(intPart.isEmpty && fracPart.isEmpty) then
      some (build fracPart)
    else none
  | _ => none

/-- JavaScript `Number(string)` on a token given as a character list:
`none` models `NaN`. -/
def jsNumber (token : List Char) : Option ℚ :=
  let t := trimChars token
  if t.isEmpty then some 0 else jsNumberCore t

/-- Whether a converted token is `NaN` (the `isNaN` check of the source). -/
def jsIsNaN (o : Option ℚ) : Bool := o.isNone

/-- Whether a converted token fails the range check `n < 1 || n > 49` of
the source; comparisons against `NaN` are false in JavaScript, matching
the `none` branch here. -/
def outOfRange (o : Option ℚ) : Bool :=
  match o with
  | some q => decide (q < 1) || decide (q > 49)
  | none => false

/-- `parseTicketNumbers` from the source: split the raw string on single
spaces, convert each token with `Number`, and reject when the token count
is not 6, some token is `NaN`, or some value is outside `[1, 49]`. -/
def parseTicketNumbers (numbersString : String) : Option (List ℚ) :=
  let numbers := (splitOnSpace numbersString.data).map jsNumber
  if numbers.length != 6 || numbers.any jsIsNaN || numbers.any outOfRange then
    none
  else
    some (numbers.map (fun o => o.getD 0))

/-! ## External collaborators

The currency ledger and the document store are external services; the
ledger is modelled as a balance table plus a trace of the `sub`/`add`
calls issued to it, per the collaborator contract of the specification
(`debit` returns success and mutates only on sufficient funds, `credit`
always mutates). Accounts are the `cash` and `bank` account names used
by the source, keyed by character id. -/

/-- A call recorded against the currency ledger. -/
inductive CurrencyEvent
  | sub (charId account : String) (amount : ℤ)
  | add (charId account : String) (amount : ℤ)
  deriving DecidableEq

/-- The currency ledger: balances per character id and account, plus the
trace of calls made so far. -/
structure Currency where
  balances : String → String → ℤ
  events : List CurrencyEvent

/-- `useCurrency(id, 'Character').sub(account, amount)`: succeed and debit
exactly when the balance suffices. -/
def Currency.subCall (cur : Currency) (charId account : String) (amount : ℤ) :
    Bool × Currency :=
  if amount ≤ cur.balances charId account then
    (true,
      { balances := fun c a =>
          if c = charId ∧ a = account then cur.balances c a - amount
          else cur.balances c a,
        events := cur.events ++ [CurrencyEvent.sub charId account amount] })
  else (false, cur)

/-- `useCurrency(id, 'Character').add(account, amount)`: unconditional credit. -/
def Currency.addCall (cur : Currency) (charId account : String) (amount : ℤ) :
    Currency :=
  { balances := fun c a =>
      if c = charId ∧ a = account then cur.balances c a + amount
      else cur.balances c a,
    events := cur.events ++ [CurrencyEvent.add charId account amount] }

/-- The world visible to the plugin: the lottery-state document (at most
one, per the store query `{ type: 'lottery' }`), the ticket collection,
the character directory and the currency ledger. -/
structure World where
  lotteryState : Option ASCLottery
  tickets : List LotteryTicket
  characters : List Character
  currency : Currency

/-! ## Ticket purchase -/

/-- `buyTicket` from the source. `newTicketId` is the id the document
store returns from `create` (`none` models a falsy id, in which case the
record is not persisted). The result pairs the source's return value with
the post-state of the world. -/
def buyTicket (cfg : LotteryConfig) (w : World) (playerId : String)
    (numbers : String) (newTicketId : Option String) :
    Option LotteryTicket × World :=
  match parseTicketNumbers numbers with
  | none => (none, w)
  | some ticketNumbers =>
    match w.tickets.find? (fun t => t.playerUUID == playerId) with
    | some _ => (none, w)
    | none =>
      match Currency.subCall w.currency playerId "cash" cfg.ticketPrice with
      | (false, _) => (none, w)
      | (true, cur1) =>
        match newTicketId with
        | none => (none, { w with currency := cur1 })
        | some tid =>
          let newTicket : LotteryTicket :=
            { _id := some tid, ticketNumbers := ticketNumbers, playerUUID := playerId }
          let w2 : World :=
            { w with currency := cur1, tickets := w.tickets ++ [newTicket] }
          match w2.lotteryState with
          | some lotteryState =>
            let st2 : ASCLottery :=
              { lotteryState with
                jackpot := lotteryState.jackpot + lotteryState.ticketPrice }
            (some newTicket, { w2 with lotteryState := some st2 })
          | none => (some newTicket, w2)

/-! ## Winning-number generation -/

/-- One draw of `Math.floor(Math.random() * (max - min + 1)) + min`; the
oracle value `r` is the floored product, which ranges over
`{0, …, max - min}` because `Math.random()` ranges over `[0, 1)`. -/
def genValue (minv : ℕ) (r : ℕ) : ℕ := minv + r

/-- Insertion into the JavaScript `Set` backing the sampler: appends when
absent, keeps insertion order (which `Array.from` then reads back). -/
def jsSetInsert (numbers : List ℕ) (x : ℕ) : List ℕ :=
  if x ∈ numbers then numbers else numbers ++ [x]

/-- The `while (numbers.size < count)` rejection-sampling loop, with fuel;
`none` models a run that has not terminated within `fuel` iterations. -/
def genLoop (count minv : ℕ) (rand : ℕ → ℕ) :
    ℕ → ℕ → List ℕ → Option (List ℕ)
  | fuel, i, numbers =>
    if count ≤ numbers.length then some numbers
    else
      match fuel with
      | 0 => none
      | fuel' + 1 =>
        genLoop count minv rand fuel' (i + 1)
          (jsSetInsert numbers (genValue minv (rand i)))

/-- `generateRandomNumbers` from the source (the `max` argument acts only
through the oracle's range hypothesis, see `genValue`). -/
def generateRandomNumbers (fuel : ℕ) (rand : ℕ → ℕ) (count minv : ℕ) :
    Option (List ℕ) :=
  genLoop count minv rand fuel 0 []

/-! ## The draw -/

/-- The payout loop of `drawWinningNumbers`: for each ticket, resolve the
owner in the character directory; when found, remember the name and
credit the jackpot share to the owner's bank account. -/
def payoutLoop (share : ℤ) (characters : List Character) :
    List LotteryTicket → Currency → String → Currency × String
  | [], cur, winnerName => (cur, winnerName)
  | t :: rest, cur, winnerName =>
    match characters.find? (fun c => c._id == t.playerUUID) with
    | some c =>
      payoutLoop share characters rest (cur.addCall c._id "bank" share) c.name
    | none => payoutLoop share characters rest cur winnerName

/-- `drawWinningNumbers` from the source. `rand` is the random oracle,
`fuel` bounds the sampling loop, `now` is the current date. The result is
`none` only when the sampling loop fails to terminate within `fuel`;
otherwise it pairs the returned winning numbers with the post-state. -/
def drawWinningNumbers (cfg : LotteryConfig) (fuel : ℕ) (rand : ℕ → ℕ)
    (now : ℤ) (w : World) : Option (List ℕ × World) :=
  match w.lotteryState with
  | none => some ([], w)
  | some lotteryState =>
    match generateRandomNumbers fuel rand 6 numberRange.min with
    | none => none
    | some nums =>
      let st1 : ASCLottery :=
        { lotteryState with winningNumbers := nums, lastDrawDate := now }
      let w1 : World := { w with lotteryState := some st1 }
      let winningTickets := w1.tickets
      if 0 < winningTickets.length then
        let jackpotShare : ℤ := Int.fdiv st1.jackpot winningTickets.length
        let payout :=
          payoutLoop jackpotShare w1.characters winningTickets w1.currency
            "No Winner today."
        let st2 : ASCLottery := { st1 with jackpot := cfg.initialJackpot }
        some (nums,
          { w1 with lotteryState := some st2, currency := payout.1, tickets := [] })
      else
        some (nums, { w1 with tickets := [] })

/-! ## Draw scheduling -/

/-- An instant of wall-clock time, as an abstract day index plus
milliseconds since that day's midnight (the calendar arithmetic of
`Date` is abstracted into the day index). -/
structure Instant where
  day : ℤ
  msOfDay : ℕ
  deriving DecidableEq

/-- Epoch milliseconds of an instant, the order `Date` comparisons use. -/
def Instant.toMs (t : Instant) : ℤ := t.day * 86400000 + t.msOfDay

/-- Milliseconds past midnight of the configured draw time. -/
def drawTimeMs : ℕ := (drawTime.hour * 60 + drawTime.minute) * 60 * 1000

/-- The next-fire computation of `scheduleDraw`: build today's draw
instant; if strictly in the past (`now > nextDraw`), move it one day
forward. -/
def scheduleDrawNextFire (now : Instant) : Instant :=
  let nextDraw : Instant := { day := now.day, msOfDay := drawTimeMs }
  if Instant.toMs nextDraw < Instant.toMs now then
    { day := nextDraw.day + 1, msOfDay := nextDraw.msOfDay }
  else nextDraw

/-! ## Sample data for concrete runs -/

def sampleCfg : LotteryConfig := { ticketPrice := 100, initialJackpot := 500 }

def charA : Character := { _id := "charA", name := "Alice" }

def ticketA : LotteryTicket :=
  { _id := some "t1", ticketNumbers := [1, 2, 3, 4, 5, 6], playerUUID := "charA" }

def baseCurrency : Currency := { balances := fun _ _ => 1000, events := [] }

def stateA : ASCLottery :=
  { ticketPrice := 100, jackpot := 600, lastDrawDate := 0, winningNumbers := [] }

def worldA : World :=
  { lotteryState := some stateA, tickets := [ticketA], characters := [charA],
    currency := baseCurrency }

def sampleRand : ℕ → ℕ := fun i => i % 49

/-- The specification's rejection condition for the ticket validator,
stated over the tokens of the input: wrong token count, a token that
fails numeric conversion (`NaN`), or a converted value out of `[1, 49]`. -/
def ticketRejectSpec (s : String) : Prop :=
  (splitOnSpace s.data).length ≠ 6 ∨
  (∃ t ∈ splitOnSpace s.data, jsNumber t = none) ∨
  (∃ t ∈ splitOnSpace s.data, ∃ q, jsNumber t = some q ∧ (q < 1 ∨ 49 < q))

/-- A ledger in which every balance is too small to buy a ticket at
`sampleCfg`'s price. -/
def poorCurrency : Currency := { balances := fun _ _ => 50, events := [] }

def worldPoor : World :=
  { lotteryState := some stateA, tickets := [ticketA], characters := [charA],
    currency := poorCurrency }

/-- A lottery state whose jackpot differs from `sampleCfg.initialJackpot`. -/
def stateRich : ASCLottery :=
  { ticketPrice := 100, jackpot := 501, lastDrawDate := 0, winningNumbers := [] }

/-- A world with a lottery state but no tickets at all. -/
def worldEmptyTickets : World :=
  { lotteryState := some stateRich, tickets := [], characters := [],
    currency := baseCurrency }

/-- A world with a ticket but no lottery state document. -/
def worldNoState : World :=
  { lotteryState := none, tickets := [ticketA], characters := [charA],
    currency := baseCurrency }

/-! ## Concrete sanity checks -/
example : parseTicketNumbers "1 2 3 4 5 6" = some [1, 2, 3, 4, 5, 6] := by decide
example : parseTicketNumbers "1 2 3 4 5" = none := by decide
example : parseTicketNumbers "1.5 2 3 4 5 6" = some [mkRat 3 2, 2, 3, 4, 5, 6] := by decide
example : parseTicketNumbers "0 2 3 4 5 6" = none := by decide
example : parseTicketNumbers "x 2 3 4 5 6" = none := by decide
example : parseTicketNumbers "1 1 1 1 1 1" = some [1, 1, 1, 1, 1, 1] := by decide
example : parseTicketNumbers "50 2 3 4 5 6" = none := by decide
example : parseTicketNumbers "-1 2 3 4 5 6" = none := by decide
example : parseTicketNumbers "1  2 3 4 5 6" = none := by decide
example :
    scheduleDrawNextFire { day := 7, msOfDay := 19 * 3600000 } =
      { day := 8, msOfDay := 64800000 } := by decide
example :
    scheduleDrawNextFire { day := 7, msOfDay := 9 * 3600000 } =
      { day := 7, msOfDay := 64800000 } := by decide
example :
    (drawWinningNumbers sampleCfg 6 sampleRand 0 worldA).map (fun r => r.1) =
      some [1, 2, 3, 4, 5, 6] := by decide
example :
    (drawWinningNumbers sampleCfg 6 sampleRand 0 worldA).map
      (fun r => r.2.currency.events) =
      some [CurrencyEvent.add "charA" "bank" 600] := by decide
example :
    (drawWinningNumbers sampleCfg 6 sampleRand 0 worldA).map
      (fun r => r.2.lotteryState.map ASCLottery.jackpot) = some (some 500) := by decide
example :
    (drawWinningNumbers sampleCfg 6 sampleRand 0 worldA).map (fun r => r.2.tickets) =
      some [] := by decide
example :
    (buyTicket sampleCfg worldA "charB" "1 2 3 4 5 6" (some "t2")).1.isSome = true := by
  decide
example :
    (buyTicket sampleCfg worldA "charB" "1 2 3 4 5 6" (some "t2")).2.currency.balances
      "charB" "cash" = 900 := by decide
example :
    (buyTicket sampleCfg worldA "charB" "1 2 3 4 5 6" (some "t2")).2.lotteryState.map
      ASCLottery.jackpot = some 700 := by decide
example :
    (buyTicket sampleCfg worldA "charA" "1 2 3 4 5 6" (some "t2")).1 = none := by decide

/-! ## Helper lemmas -/

theorem jsIsNaN_eq_true_iff (o : Option ℚ) : jsIsNaN o = true ↔ o = none := by
  cases o <;> simp [jsIsNaN]

theorem outOfRange_eq_true_iff (o : Option ℚ) :
    outOfRange o = true ↔ ∃ q, o = some q ∧ (q < 1 ∨ 49 < q) := by
  cases o <;> simp [outOfRange]

theorem any_jsIsNaN_iff (l : List (List Char)) :
    ((l.map jsNumber).any jsIsNaN = true) ↔ ∃ t ∈ l, jsNumber t = none := by
  simp [List.any_map, List.any_eq_true, Function.comp, jsIsNaN_eq_true_iff]

theorem any_outOfRange_iff (l : List (List Char)) :
    ((l.map jsNumber).any outOfRange = true) ↔
      ∃ t ∈ l, ∃ q, jsNumber t = some q ∧ (q < 1 ∨ 49 < q) := by
  simp [List.any_map, List.any_eq_true, Function.comp, outOfRange_eq_true_iff]

theorem ticketRejectCond_iff (s : String) :
    ((((splitOnSpace s.data).map jsNumber).length != 6
      || ((splitOnSpace s.data).map jsNumber).any jsIsNaN
      || ((splitOnSpace s.data).map jsNumber).any outOfRange) = true) ↔
    ticketRejectSpec s := by
  rw [Bool.or_eq_true, Bool.or_eq_true, bne_iff_ne, List.length_map,
    any_jsIsNaN_iff, any_outOfRange_iff, ticketRejectSpec, or_assoc]

/-! ## Claim C2 -/

/-- C2 counterexample: the claim says a token that is not an integer (for
example a fractional numeral) causes rejection, but on the input
`"1.5 2 3 4 5 6"` the validator succeeds, returning the non-integral
value `3/2` as the first ticket number. -/
theorem C2_counterexample :
    parseTicketNumbers "1.5 2 3 4 5 6" = some [mkRat 3 2, 2, 3, 4, 5, 6] ∧
    (mkRat 3 2).den ≠ 1 := by decide

/-- C2 (amended): the validator fails exactly when the number of
space-separated tokens is not 6, some token fails JavaScript numeric
conversion (is `NaN`), or some converted value lies outside `[1, 49]`;
tokens converting to fractional values inside the range are accepted. -/
theorem C2_amended_validator (s : String) :
    parseTicketNumbers s = none ↔ ticketRejectSpec s := by
  unfold parseTicketNumbers
  simp only []
  split
  next h => exact iff_of_true rfl ((ticketRejectCond_iff s).mp h)
  next h =>
    refine iff_of_false (by simp) (fun hs => h ?_)
    exact (ticketRejectCond_iff s).mpr hs

/-! ## Claim C6 -/

/-- C6: when the buyer's cash balance is below the configured ticket
price, the purchase returns the failure sentinel and leaves the whole
world — ticket collection, lottery state (hence jackpot) and ledger —
unchanged. -/
theorem C6_insufficient_funds (cfg : LotteryConfig) (w : World)
    (playerId numbers : String) (newTicketId : Option String)
    (hb : w.currency.balances playerId "cash" < cfg.ticketPrice) :
    buyTicket cfg w playerId numbers newTicketId = (none, w) := by
  unfold buyTicket
  cases hp : parseTicketNumbers numbers with
  | none => rfl
  | some ns =>
    cases hf : w.tickets.find? (fun t => t.playerUUID == playerId) with
    | some t => rfl
    | none =>
      have hsub : Currency.subCall w.currency playerId "cash" cfg.ticketPrice =
          (false, w.currency) := by
        unfold Currency.subCall
        rw [if_neg (by omega)]
      rw [hsub]

theorem C6_witness :
    buyTicket sampleCfg worldPoor "charB" "1 2 3 4 5 6" (some "t2") =
      (none, worldPoor) :=
  C6_insufficient_funds sampleCfg worldPoor "charB" "1 2 3 4 5 6" (some "t2")
    (by decide)

/-! ## Claim C7 -/

/-- C7: when the buyer already holds a ticket, the purchase returns the
failure sentinel and leaves the whole world unchanged — in particular no
debit is issued and the jackpot stays as it was — regardless of the
buyer's balance. -/
theorem C7_duplicate_ticket (cfg : LotteryConfig) (w : World)
    (playerId numbers : String) (newTicketId : Option String)
    (hdup : (w.tickets.find? (fun t => t.playerUUID == playerId)).isSome = true) :
    buyTicket cfg w playerId numbers newTicketId = (none, w) := by
  unfold buyTicket
  cases hp : parseTicketNumbers numbers with
  | none => rfl
  | some ns =>
    cases hf : w.tickets.find? (fun t => t.playerUUID == playerId) with
    | some t => rfl
    | none => rw [hf] at hdup; simp at hdup

theorem C7_witness :
    buyTicket sampleCfg worldA "charA" "7 8 9 10 11 12" (some "t2") =
      (none, worldA) :=
  C7_duplicate_ticket sampleCfg worldA "charA" "7 8 9 10 11 12" (some "t2")
    (by decide)

/-! ## Claim C10 -/

/-- C10: when validation, the duplicate check and the debit all pass but
the store's `create` returns no id, the purchase returns the failure
sentinel while the buyer's cash stays debited by the ticket price (no
compensation), and the ticket collection and lottery state (hence the
jackpot) are unchanged. -/
theorem C10_create_failure (cfg : LotteryConfig) (w : World)
    (playerId numbers : String) (ns : List ℚ)
    (hp : parseTicketNumbers numbers = some ns)
    (hdup : w.tickets.find? (fun t => t.playerUUID == playerId) = none)
    (hb : cfg.ticketPrice ≤ w.currency.balances playerId "cash") :
    (buyTicket cfg w playerId numbers none).1 = none ∧
    (buyTicket cfg w playerId numbers none).2.currency.balances playerId "cash" =
      w.currency.balances playerId "cash" - cfg.ticketPrice ∧
    (buyTicket cfg w playerId numbers none).2.lotteryState = w.lotteryState ∧
    (buyTicket cfg w playerId numbers none).2.tickets = w.tickets := by
  unfold buyTicket
  rw [hp, hdup]
  unfold Currency.subCall
  rw [if_pos hb]
  refine ⟨rfl, ?_, rfl, rfl⟩
  simp

theorem C10_witness :
    (buyTicket sampleCfg worldA "charB" "1 2 3 4 5 6" none).1 = none ∧
    (buyTicket sampleCfg worldA "charB" "1 2 3 4 5 6" none).2.currency.balances
      "charB" "cash" =
      worldA.currency.balances "charB" "cash" - sampleCfg.ticketPrice ∧
    (buyTicket sampleCfg worldA "charB" "1 2 3 4 5 6" none).2.lotteryState =
      worldA.lotteryState ∧
    (buyTicket sampleCfg worldA "charB" "1 2 3 4 5 6" none).2.tickets =
      worldA.tickets :=
  C10_create_failure sampleCfg worldA "charB" "1 2 3 4 5 6"
    [1, 2, 3, 4, 5, 6] (by decide) (by decide) (by decide)

/-! ## Claim C8 -/

/-- C8: a successful purchase with an existing lottery state bumps the
stored jackpot by the ticket price and debits the buyer's cash by the
ticket price. The code debits `lotteryConfig.ticketPrice` but increments
the jackpot by the stored state's `ticketPrice`; the two agree on every
state this plugin creates (initialisation copies the configured price
into the state and nothing ever changes it), which the hypothesis
`hprice` records. -/
theorem C8_jackpot_increment (cfg : LotteryConfig) (w : World)
    (playerId numbers : String) (newTicketId : Option String) (st : ASCLottery)
    (hst : w.lotteryState = some st)
    (hprice : st.ticketPrice = cfg.ticketPrice)
    (hsucc : (buyTicket cfg w playerId numbers newTicketId).1.isSome = true) :
    (buyTicket cfg w playerId numbers newTicketId).2.lotteryState.map
      ASCLottery.jackpot = some (st.jackpot + cfg.ticketPrice) ∧
    (buyTicket cfg w playerId numbers newTicketId).2.currency.balances
      playerId "cash" =
      w.currency.balances playerId "cash" - cfg.ticketPrice := by
  unfold buyTicket at hsucc ⊢
  cases hp : parseTicketNumbers numbers with
  | none => rw [hp] at hsucc; simp at hsucc
  | some ns =>
    rw [hp] at hsucc
    cases hf : w.tickets.find? (fun t => t.playerUUID == playerId) with
    | some t => rw [hf] at hsucc; simp at hsucc
    | none =>
      rw [hf] at hsucc
      cases hsub : Currency.subCall w.currency playerId "cash" cfg.ticketPrice with
      | mk ok cur1 =>
        rw [hsub] at hsucc
        cases ok with
        | false => simp at hsucc
        | true =>
          cases newTicketId with
          | none => simp at hsucc
          | some tid =>
            have hcur : cur1.balances playerId "cash" =
                w.currency.balances playerId "cash" - cfg.ticketPrice := by
              unfold Currency.subCall at hsub
              by_cases hb : cfg.ticketPrice ≤ w.currency.balances playerId "cash"
              · rw [if_pos hb] at hsub
                have h2 := congrArg Prod.snd hsub
                simp only at h2
                rw [← h2]
                simp
              · rw [if_neg hb] at hsub
                have h1 := congrArg Prod.fst hsub
                simp at h1
            exact ⟨by simp [hst, hprice], by simp [hst, hcur]⟩

theorem C8_witness :
    (buyTicket sampleCfg worldA "charB" "1 2 3 4 5 6" (some "t2")).2.lotteryState.map
      ASCLottery.jackpot = some (stateA.jackpot + sampleCfg.ticketPrice) ∧
    (buyTicket sampleCfg worldA "charB" "1 2 3 4 5 6" (some "t2")).2.currency.balances
      "charB" "cash" =
      worldA.currency.balances "charB" "cash" - sampleCfg.ticketPrice :=
  C8_jackpot_increment sampleCfg worldA "charB" "1 2 3 4 5 6" (some "t2") stateA
    rfl rfl (by decide)

/-! ## Payout and sampler lemmas -/

/-- The payout loop issues exactly one bank credit of `share` per ticket
whose owner resolves in the character directory, in ticket order, and no
other ledger call. -/
theorem payoutLoop_events (share : ℤ) (chars : List Character) :
    ∀ (ts : List LotteryTicket) (cur : Currency) (name : String),
      (payoutLoop share chars ts cur name).1.events =
        cur.events ++ ts.filterMap (fun t =>
          (chars.find? (fun c => c._id == t.playerUUID)).map
            (fun c => CurrencyEvent.add c._id "bank" share)) := by
  intro ts
  induction ts with
  | nil => intro cur name; simp [payoutLoop]
  | cons t rest ih =>
    intro cur name
    cases hf : chars.find? (fun c => c._id == t.playerUUID) with
    | none => simp [payoutLoop, hf, ih]
    | some c => simp [payoutLoop, hf, ih, Currency.addCall]

theorem jsSetInsert_nodup {l : List ℕ} {x : ℕ} (h : l.Nodup) :
    (jsSetInsert l x).Nodup := by
  unfold jsSetInsert
  split
  · exact h
  next hx => simp [List.nodup_append, h, hx]

theorem jsSetInsert_length_le {l : List ℕ} {x : ℕ} :
    (jsSetInsert l x).length ≤ l.length + 1 := by
  unfold jsSetInsert
  split <;> simp

theorem jsSetInsert_mem {l : List ℕ} {x y : ℕ} (h : y ∈ jsSetInsert l x) :
    y ∈ l ∨ y = x := by
  unfold jsSetInsert at h
  split at h
  · exact Or.inl h
  · rcases List.mem_append.mp h with h1 | h1
    · exact Or.inl h1
    · exact Or.inr (List.mem_singleton.mp h1)

/-- Soundness of the rejection-sampling loop: starting from a duplicate-free
accumulator of at most `count` in-range values, a terminating run returns
exactly `count` pairwise-distinct values in `[minv, minv + bound]`,
provided every oracle value is at most `bound`. -/
theorem genLoop_sound (count minv : ℕ) (rand : ℕ → ℕ) (bound : ℕ)
    (hrand : ∀ i, rand i ≤ bound) :
    ∀ (fuel i : ℕ) (acc : List ℕ), acc.Nodup → acc.length ≤ count →
      (∀ x ∈ acc, minv ≤ x ∧ x ≤ minv + bound) →
      ∀ l, genLoop count minv rand fuel i acc = some l →
        l.Nodup ∧ l.length = count ∧ ∀ x ∈ l, minv ≤ x ∧ x ≤ minv + bound := by
  intro fuel
  induction fuel with
  | zero =>
    intro i acc hnd hlen hmem l hl
    unfold genLoop at hl
    split at hl
    next hstop =>
      obtain rfl : acc = l := by simpa using hl
      exact ⟨hnd, le_antisymm hlen hstop, hmem⟩
    next => simp at hl
  | succ fuel ih =>
    intro i acc hnd hlen hmem l hl
    unfold genLoop at hl
    split at hl
    next hstop =>
      obtain rfl : acc = l := by simpa using hl
      exact ⟨hnd, le_antisymm hlen hstop, hmem⟩
    next hstop =>
      refine ih (i + 1) (jsSetInsert acc (genValue minv (rand i)))
        (jsSetInsert_nodup hnd) ?_ ?_ l hl
      · have := jsSetInsert_length_le (l := acc) (x := genValue minv (rand i))
        omega
      · intro x hx
        rcases jsSetInsert_mem hx with h1 | h1
        · exact hmem x h1
        · subst h1
          unfold genValue
          have := hrand i
          omega

/-- Soundness of `generateRandomNumbers` (started, as in the source, on an
empty set). -/
theorem generateRandomNumbers_sound (fuel : ℕ) (rand : ℕ → ℕ)
    (count minv bound : ℕ) (hrand : ∀ i, rand i ≤ bound) (l : List ℕ)
    (hl : generateRandomNumbers fuel rand count minv = some l) :
    l.Nodup ∧ l.length = count ∧ ∀ x ∈ l, minv ≤ x ∧ x ≤ minv + bound :=
  genLoop_sound count minv rand bound hrand fuel 0 [] (by simp) (by simp)
    (by simp) l hl

/-! ## Draw characterisation -/

/-- A completed draw with an existing state implies the sampling loop
terminated. -/
theorem drawWinningNumbers_gen_some (cfg : LotteryConfig) (fuel : ℕ)
    (rand : ℕ → ℕ) (now : ℤ) (w : World) (st : ASCLottery)
    (hst : w.lotteryState = some st)
    (hsome : (drawWinningNumbers cfg fuel rand now w).isSome = true) :
    ∃ l, generateRandomNumbers fuel rand 6 numberRange.min = some l := by
  unfold drawWinningNumbers at hsome
  rw [hst] at hsome
  cases hg : generateRandomNumbers fuel rand 6 numberRange.min with
  | none => rw [hg] at hsome; simp at hsome
  | some l => exact ⟨l, rfl⟩

/-- Result of a completed draw when at least one ticket exists: winning
numbers and date persisted, jackpot split via the payout loop, jackpot
reset to the configured initial value, tickets deleted. -/
theorem drawWinningNumbers_pos (cfg : LotteryConfig) (fuel : ℕ)
    (rand : ℕ → ℕ) (now : ℤ) (w : World) (st : ASCLottery) (l : List ℕ)
    (hst : w.lotteryState = some st)
    (hg : generateRandomNumbers fuel rand 6 numberRange.min = some l)
    (hN : 0 < w.tickets.length) :
    drawWinningNumbers cfg fuel rand now w =
      some (l,
        { lotteryState := some ({ st with
            winningNumbers := l,
            lastDrawDate := now,
            jackpot := cfg.initialJackpot }),
          tickets := [],
          characters := w.characters,
          currency := (payoutLoop (Int.fdiv st.jackpot w.tickets.length)
            w.characters w.tickets w.currency "No Winner today.").1 }) := by
  unfold drawWinningNumbers
  rw [hst, hg]
  simp [hN]

/-- Result of a completed draw when no tickets exist: winning numbers and
date persisted, jackpot untouched, ticket collection (already empty)
rewritten to empty, no ledger call. -/
theorem drawWinningNumbers_zero (cfg : LotteryConfig) (fuel : ℕ)
    (rand : ℕ → ℕ) (now : ℤ) (w : World) (st : ASCLottery) (l : List ℕ)
    (hst : w.lotteryState = some st)
    (hg : generateRandomNumbers fuel rand 6 numberRange.min = some l)
    (hN : w.tickets.length = 0) :
    drawWinningNumbers cfg fuel rand now w =
      some (l,
        { lotteryState := some ({ st with winningNumbers := l, lastDrawDate := now }),
          tickets := [],
          characters := w.characters,
          currency := w.currency }) := by
  unfold drawWinningNumbers
  rw [hst, hg]
  simp [hN]

/-! ## Claim C4 -/

/-- C4: a completed draw with an existing lottery state returns exactly 6
pairwise-distinct winning numbers, each in `[1, 49]`, and persists that
same list in the lottery state, provided the random oracle respects the
range of `Math.floor(Math.random() * 49)`. -/
theorem C4_draw_distinct (cfg : LotteryConfig) (fuel : ℕ) (rand : ℕ → ℕ)
    (now : ℤ) (w : World) (st : ASCLottery) (nums : List ℕ)
    (hst : w.lotteryState = some st)
    (hrand : ∀ i, rand i ≤ 48)
    (hnums : (drawWinningNumbers cfg fuel rand now w).map Prod.fst = some nums) :
    nums.length = 6 ∧ nums.Nodup ∧ (∀ x ∈ nums, 1 ≤ x ∧ x ≤ 49) ∧
    (drawWinningNumbers cfg fuel rand now w).map
      (fun r => r.2.lotteryState.map ASCLottery.winningNumbers) =
      some (some nums) := by
  have hsome : (drawWinningNumbers cfg fuel rand now w).isSome = true := by
    cases hd : drawWinningNumbers cfg fuel rand now w with
    | none => rw [hd] at hnums; simp at hnums
    | some r => simp
  obtain ⟨l, hg⟩ := drawWinningNumbers_gen_some cfg fuel rand now w st hst hsome
  obtain ⟨hnd, hlen, hmem⟩ :=
    generateRandomNumbers_sound fuel rand 6 numberRange.min 48 hrand l hg
  rcases Nat.eq_zero_or_pos w.tickets.length with hN | hN
  · rw [drawWinningNumbers_zero cfg fuel rand now w st l hst hg hN] at hnums ⊢
    obtain rfl : l = nums := by simpa using hnums
    refine ⟨hlen, hnd, ?_, by simp⟩
    intro x hx
    have h2 := hmem x hx
    simp only [numberRange] at h2
    omega
  · rw [drawWinningNumbers_pos cfg fuel rand now w st l hst hg hN] at hnums ⊢
    obtain rfl : l = nums := by simpa using hnums
    refine ⟨hlen, hnd, ?_, by simp⟩
    intro x hx
    have h2 := hmem x hx
    simp only [numberRange] at h2
    omega

theorem C4_witness :
    ([1, 2, 3, 4, 5, 6] : List ℕ).length = 6 ∧
    ([1, 2, 3, 4, 5, 6] : List ℕ).Nodup ∧
    (∀ x ∈ ([1, 2, 3, 4, 5, 6] : List ℕ), 1 ≤ x ∧ x ≤ 49) ∧
    (drawWinningNumbers sampleCfg 6 sampleRand 0 worldA).map
      (fun r => r.2.lotteryState.map ASCLottery.winningNumbers) =
      some (some [1, 2, 3, 4, 5, 6]) :=
  C4_draw_distinct sampleCfg 6 sampleRand 0 worldA stateA [1, 2, 3, 4, 5, 6]
    rfl (fun i => by simp only [sampleRand]; omega) (by decide)

/-! ## Claim C3 -/

/-- C3: in a completed draw with an existing state and at least one
ticket, the ledger receives exactly one bank credit of
`floor(jackpot / ticketCount)` for each ticket whose owner resolves in
the character directory — independently of the ticket's numbers and of
the drawn winning numbers — and the persisted jackpot is then the
configured initial value. -/
theorem C3_payout_split (cfg : LotteryConfig) (fuel : ℕ) (rand : ℕ → ℕ)
    (now : ℤ) (w : World) (st : ASCLottery)
    (hst : w.lotteryState = some st)
    (hN : 0 < w.tickets.length)
    (hsome : (drawWinningNumbers cfg fuel rand now w).isSome = true) :
    (drawWinningNumbers cfg fuel rand now w).map
      (fun r => r.2.currency.events) =
      some (w.currency.events ++ w.tickets.filterMap (fun t =>
        (w.characters.find? (fun c => c._id == t.playerUUID)).map
          (fun c => CurrencyEvent.add c._id "bank"
            (Int.fdiv st.jackpot w.tickets.length)))) ∧
    (drawWinningNumbers cfg fuel rand now w).map
      (fun r => r.2.lotteryState.map ASCLottery.jackpot) =
      some (some cfg.initialJackpot) := by
  obtain ⟨l, hg⟩ := drawWinningNumbers_gen_some cfg fuel rand now w st hst hsome
  rw [drawWinningNumbers_pos cfg fuel rand now w st l hst hg hN]
  exact ⟨by simp [payoutLoop_events], by simp⟩

theorem C3_witness :
    (drawWinningNumbers sampleCfg 6 sampleRand 0 worldA).map
      (fun r => r.2.currency.events) =
      some (worldA.currency.events ++ worldA.tickets.filterMap (fun t =>
        (worldA.characters.find? (fun c => c._id == t.playerUUID)).map
          (fun c => CurrencyEvent.add c._id "bank"
            (Int.fdiv stateA.jackpot worldA.tickets.length)))) ∧
    (drawWinningNumbers sampleCfg 6 sampleRand 0 worldA).map
      (fun r => r.2.lotteryState.map ASCLottery.jackpot) =
      some (some sampleCfg.initialJackpot) :=
  C3_payout_split sampleCfg 6 sampleRand 0 worldA stateA rfl (by decide)
    (by decide)

/-! ## Claim C1 -/

/-- C1 counterexample: with an existing lottery state, zero tickets and a
stored jackpot of 501 ≠ 500 = configured initial jackpot, the draw
completes but leaves the jackpot at 501 — it is not reset to the initial
value, contradicting the claim's "including zero". -/
theorem C1_counterexample :
    worldEmptyTickets.tickets = [] ∧
    (drawWinningNumbers sampleCfg 6 sampleRand 0 worldEmptyTickets).map
      (fun r => r.2.lotteryState.map ASCLottery.jackpot) = some (some 501) ∧
    sampleCfg.initialJackpot = 500 := by decide

/-- C1 (amended): after a completed draw with an existing lottery state,
the persisted jackpot equals the configured initial jackpot if at least
one ticket existed at draw time, and is left at its prior value if no
tickets existed (the reset sits inside the payout branch). -/
theorem C1_amended_jackpot (cfg : LotteryConfig) (fuel : ℕ) (rand : ℕ → ℕ)
    (now : ℤ) (w : World) (st : ASCLottery)
    (hst : w.lotteryState = some st)
    (hsome : (drawWinningNumbers cfg fuel rand now w).isSome = true) :
    (drawWinningNumbers cfg fuel rand now w).map
      (fun r => r.2.lotteryState.map ASCLottery.jackpot) =
      some (some (if 0 < w.tickets.length then cfg.initialJackpot
        else st.jackpot)) := by
  obtain ⟨l, hg⟩ := drawWinningNumbers_gen_some cfg fuel rand now w st hst hsome
  rcases Nat.eq_zero_or_pos w.tickets.length with hN | hN
  · rw [drawWinningNumbers_zero cfg fuel rand now w st l hst hg hN]
    simp [hN]
  · rw [drawWinningNumbers_pos cfg fuel rand now w st l hst hg hN]
    simp [hN]

theorem C1_witness :
    (drawWinningNumbers sampleCfg 6 sampleRand 0 worldA).map
      (fun r => r.2.lotteryState.map ASCLottery.jackpot) =
      some (some (if 0 < worldA.tickets.length then sampleCfg.initialJackpot
        else stateA.jackpot)) :=
  C1_amended_jackpot sampleCfg 6 sampleRand 0 worldA stateA rfl (by decide)

/-! ## Claim C5 -/

/-- C5 counterexample: when no lottery state document exists, the draw
completes (returning the empty list) without touching the ticket
collection, so a pre-existing ticket survives, contradicting the claim's
unconditional "contains no ticket records". -/
theorem C5_counterexample :
    worldNoState.lotteryState = none ∧
    (drawWinningNumbers sampleCfg 6 sampleRand 0 worldNoState).map
      (fun r => r.2.tickets) = some [ticketA] ∧
    ([ticketA] : List LotteryTicket) ≠ [] := by decide

/-- C5 (amended): after a completed draw in which a lottery state exists,
the ticket collection is empty — whether or not any tickets existed
beforehand, and whether or not the payout branch ran. -/
theorem C5_amended_tickets_cleared (cfg : LotteryConfig) (fuel : ℕ)
    (rand : ℕ → ℕ) (now : ℤ) (w : World) (st : ASCLottery)
    (hst : w.lotteryState = some st)
    (hsome : (drawWinningNumbers cfg fuel rand now w).isSome = true) :
    (drawWinningNumbers cfg fuel rand now w).map (fun r => r.2.tickets) =
      some [] := by
  obtain ⟨l, hg⟩ := drawWinningNumbers_gen_some cfg fuel rand now w st hst hsome
  rcases Nat.eq_zero_or_pos w.tickets.length with hN | hN
  · rw [drawWinningNumbers_zero cfg fuel rand now w st l hst hg hN]; simp
  · rw [drawWinningNumbers_pos cfg fuel rand now w st l hst hg hN]; simp

theorem C5_witness :
    (drawWinningNumbers sampleCfg 6 sampleRand 0 worldA).map
      (fun r => r.2.tickets) = some [] :=
  C5_amended_tickets_cleared sampleCfg 6 sampleRand 0 worldA stateA rfl
    (by decide)

/-! ## Claim C9 -/

/-- C9: the scheduler's next fire instant is today's configured draw time
when that instant has not passed yet (including the exact draw instant),
and tomorrow's otherwise; in particular, at 19:00 it is 18:00 of the
following day. -/
theorem C9_schedule (now : Instant) :
    scheduleDrawNextFire now =
      { day := if drawTimeMs < now.msOfDay then now.day + 1 else now.day,
        msOfDay := drawTimeMs } ∧
    scheduleDrawNextFire { day := now.day, msOfDay := 19 * 60 * 60 * 1000 } =
      { day := now.day + 1, msOfDay := drawTimeMs } := by
  have key : ∀ t : Instant,
      scheduleDrawNextFire t =
        { day := if drawTimeMs < t.msOfDay then t.day + 1 else t.day,
          msOfDay := drawTimeMs } := by
    intro t
    by_cases h : drawTimeMs < t.msOfDay
    · have hc : Instant.toMs { day := t.day, msOfDay := drawTimeMs } <
          Instant.toMs t := by
        unfold Instant.toMs
        simp only []
        omega
      simp [scheduleDrawNextFire, hc, h]
    · have hc : ¬ Instant.toMs { day := t.day, msOfDay := drawTimeMs } <
          Instant.toMs t := by
        unfold Instant.toMs
        simp only []
        omega
      simp [scheduleDrawNextFire, hc, h]
  refine ⟨key now, ?_⟩
  rw [key]
  have : drawTimeMs < 19 * 60 * 60 * 1000 := by norm_num [drawTimeMs, drawTime]
  simp [this]
